import Mathlib

/-!
Verification development for the uProxy-p2p sources.

Part 1: `CoreConnector` (core_connector.ts) — command/promise correlation
between the UI and the Core backend.

Part 2: `User.update` (generic_ui/scripts/user.ts) — UI consent state.

Part 3: the SOCKS piece/coupler/session layer.  Only the `SocksPiece`
interface (lib/socks/piece.ts) is present in the sources; the session,
coupler and server implementations are modelled from the specification
document (sections 4.1, 4.2, 4.4 and 8).
-/

/-! ## Part 1: CoreConnector (core_connector.ts)

The connector keeps a global promise-id counter `promiseId_` (initially 1)
and a map `mapPromiseIdToFulfillAndReject_` from promise ids to the
fulfill/reject functions of outstanding promises.  We embed the map as the
list of its registered keys (the fulfill/reject closures themselves are
observed through the ghost `settled` log), and we add a ghost `sent` log
recording every payload handed to `browserConnector_.send`, oldest first.
`α` stands for the TypeScript `any` used for command data and for the
`argsForCallback` / `errorForCallback` values. -/

structure Payload (α : Type) where
  cmd : String
  type : Nat
  data : Option α
  promiseId : Nat
  deriving DecidableEq

/-- Observation of how a stored promise was settled: `fulfill(args)` or
`reject(err)`. -/
inductive Outcome (α : Type) where
  | fulfilled (args : α)
  | rejected (err : α)
  deriving DecidableEq

structure CoreConnector (α : Type) where
  promiseId_ : Nat
  /-- keys of `mapPromiseIdToFulfillAndReject_` -/
  pending : List Nat
  /-- ghost: payloads passed to `browserConnector_.send`, oldest first -/
  sent : List (Payload α)
  /-- ghost: promise settlements `(promiseId, outcome)`, oldest first -/
  settled : List (Nat × Outcome α)
  deriving DecidableEq

/-- Fresh connector: `promiseId_ = 1`, empty map. -/
def CoreConnector.init (α : Type) : CoreConnector α :=
  ⟨1, [], [], []⟩

/-- `sendCommand`: builds a payload with `promiseId: 0` and sends it. -/
def CoreConnector.sendCommand (s : CoreConnector α) (command : Nat)
    (data : Option α) : CoreConnector α :=
  { s with sent := s.sent ++ [⟨"emit", command, data, 0⟩] }

/-- `promiseCommand`: increments the counter, sends one payload carrying the
new id, registers the promise's fulfill/reject under that id, and returns the
id identifying the promise it created. -/
def CoreConnector.promiseCommand (s : CoreConnector α) (command : Nat)
    (data : Option α) : CoreConnector α × Nat :=
  let promiseId := s.promiseId_ + 1
  ({ s with
      promiseId_ := promiseId,
      pending := promiseId :: s.pending,
      sent := s.sent ++ [⟨"emit", command, data, promiseId⟩] }, promiseId)

/-- `handleRequestFulfilled_`: if the map has an entry for `data.promiseId`,
call its `fulfill(data.argsForCallback)` and delete the entry; otherwise only
warn. -/
def CoreConnector.handleRequestFulfilled_ (s : CoreConnector α)
    (promiseId : Nat) (argsForCallback : α) : CoreConnector α :=
  if promiseId ∈ s.pending then
    { s with
        pending := s.pending.erase promiseId,
        settled := s.settled ++ [(promiseId, Outcome.fulfilled argsForCallback)] }
  else s

/-- `handleRequestRejected_`: if the map has an entry for `data.promiseId`,
call its `reject(data.errorForCallback)` and delete the entry; otherwise only
warn. -/
def CoreConnector.handleRequestRejected_ (s : CoreConnector α)
    (promiseId : Nat) (errorForCallback : α) : CoreConnector α :=
  if promiseId ∈ s.pending then
    { s with
        pending := s.pending.erase promiseId,
        settled := s.settled ++ [(promiseId, Outcome.rejected errorForCallback)] }
  else s

/-- The externally visible events driving a `CoreConnector`. -/
inductive ConnectorEvent (α : Type) where
  | sendCmd (command : Nat) (data : Option α)
  | promiseCmd (command : Nat) (data : Option α)
  | fulfilledUpdate (promiseId : Nat) (argsForCallback : α)
  | rejectedUpdate (promiseId : Nat) (errorForCallback : α)
  deriving DecidableEq

def connectorStep (s : CoreConnector α) : ConnectorEvent α → CoreConnector α
  | .sendCmd c d => s.sendCommand c d
  | .promiseCmd c d => (s.promiseCommand c d).1
  | .fulfilledUpdate p a => s.handleRequestFulfilled_ p a
  | .rejectedUpdate p e => s.handleRequestRejected_ p e

def runConnector (evs : List (ConnectorEvent α)) : CoreConnector α :=
  evs.foldl connectorStep (CoreConnector.init α)

/-- Reachability invariant of the connector state. -/
def ConnInv (s : CoreConnector α) : Prop :=
  1 ≤ s.promiseId_ ∧
  (∀ q ∈ s.sent, q.promiseId ≤ s.promiseId_) ∧
  (∀ p ∈ s.pending, 2 ≤ p ∧ p ≤ s.promiseId_) ∧
  s.pending.Nodup

theorem connInv_init : ConnInv (CoreConnector.init α) := by
  refine ⟨le_refl 1, ?_, ?_, List.nodup_nil⟩ <;> simp [CoreConnector.init]

theorem connInv_step (s : CoreConnector α) (e : ConnectorEvent α)
    (h : ConnInv s) : ConnInv (connectorStep s e) := by
  obtain ⟨h1, h2, h3, h4⟩ := h
  cases e with
  | sendCmd c d =>
      refine ⟨h1, ?_, h3, h4⟩
      intro q hq
      simp only [connectorStep, CoreConnector.sendCommand, List.mem_append,
        List.mem_singleton] at hq
      rcases hq with hq | hq
      · exact h2 q hq
      · subst hq; exact Nat.zero_le _
  | promiseCmd c d =>
      refine ⟨?_, ?_, ?_, ?_⟩
      · exact le_trans h1 (Nat.le_succ _)
      · intro q hq
        simp only [connectorStep, CoreConnector.promiseCommand, List.mem_append,
          List.mem_singleton] at hq ⊢
        rcases hq with hq | hq
        · exact le_trans (h2 q hq) (Nat.le_succ _)
        · subst hq; exact le_refl _
      · intro p hp
        simp only [connectorStep, CoreConnector.promiseCommand,
          List.mem_cons] at hp ⊢
        rcases hp with hp | hp
        · subst hp
          exact ⟨Nat.succ_le_succ h1, le_refl _⟩
        · exact ⟨(h3 p hp).1, le_trans (h3 p hp).2 (Nat.le_succ _)⟩
      · simp only [connectorStep, CoreConnector.promiseCommand]
        refine List.Nodup.cons ?_ h4
        intro hmem
        exact absurd ((h3 _ hmem).2) (Nat.not_succ_le_self _)
  | fulfilledUpdate p a =>
      simp only [connectorStep, CoreConnector.handleRequestFulfilled_]
      by_cases hp : p ∈ s.pending
      · rw [if_pos hp]
        refine ⟨h1, h2, ?_, h4.erase p⟩
        intro q hq
        exact h3 q (List.mem_of_mem_erase hq)
      · rw [if_neg hp]; exact ⟨h1, h2, h3, h4⟩
  | rejectedUpdate p a =>
      simp only [connectorStep, CoreConnector.handleRequestRejected_]
      by_cases hp : p ∈ s.pending
      · rw [if_pos hp]
        refine ⟨h1, h2, ?_, h4.erase p⟩
        intro q hq
        exact h3 q (List.mem_of_mem_erase hq)
      · rw [if_neg hp]; exact ⟨h1, h2, h3, h4⟩

theorem connInv_run (evs : List (ConnectorEvent α)) :
    ConnInv (runConnector evs) := by
  suffices h : ∀ s : CoreConnector α, ConnInv s → ConnInv (evs.foldl connectorStep s) by
    exact h _ connInv_init
  induction evs with
  | nil => intro s hs; exact hs
  | cons e rest ih =>
      intro s hs
      exact ih _ (connInv_step s e hs)

/-- Handling an update settles a fulfilled outcome for `(p, a)` exactly when
the update is `COMMAND_FULFILLED` carrying `p` with args `a` and `p` has a
pending entry. -/
theorem settled_fulfilled_iff (s : CoreConnector α) (e : ConnectorEvent α)
    (p : Nat) (a : α) :
    (p, Outcome.fulfilled a) ∈ (connectorStep s e).settled ↔
      ((p, Outcome.fulfilled a) ∈ s.settled ∨
        (e = ConnectorEvent.fulfilledUpdate p a ∧ p ∈ s.pending)) := by
  cases e with
  | sendCmd c d => simp [connectorStep, CoreConnector.sendCommand]
  | promiseCmd c d => simp [connectorStep, CoreConnector.promiseCommand]
  | fulfilledUpdate p' a' =>
      simp only [connectorStep, CoreConnector.handleRequestFulfilled_]
      by_cases hp : p' ∈ s.pending
      · rw [if_pos hp]
        simp only [List.mem_append, List.mem_singleton, Prod.mk.injEq,
          Outcome.fulfilled.injEq, ConnectorEvent.fulfilledUpdate.injEq]
        constructor
        · rintro (h | ⟨rfl, rfl⟩)
          · exact Or.inl h
          · exact Or.inr ⟨⟨rfl, rfl⟩, hp⟩
        · rintro (h | ⟨⟨rfl, rfl⟩, _⟩)
          · exact Or.inl h
          · exact Or.inr ⟨rfl, rfl⟩
      · rw [if_neg hp]
        constructor
        · exact Or.inl
        · rintro (h | ⟨heq, hmem⟩)
          · exact h
          · injection heq with hp1 ha1
            subst hp1
            exact absurd hmem hp
  | rejectedUpdate p' x' =>
      simp only [connectorStep, CoreConnector.handleRequestRejected_]
      by_cases hp : p' ∈ s.pending
      · rw [if_pos hp]
        simp only [List.mem_append, List.mem_singleton, Prod.mk.injEq]
        constructor
        · rintro (h | ⟨rfl, h2⟩)
          · exact Or.inl h
          · exact absurd h2 (by simp)
        · rintro (h | ⟨heq, hmem⟩)
          · exact Or.inl h
          · exact absurd heq (by simp)
      · rw [if_neg hp]
        constructor
        · exact Or.inl
        · rintro (h | ⟨heq, hmem⟩)
          · exact h
          · exact absurd heq (by simp)

/-- Handling an update settles a rejected outcome for `(p, x)` exactly when
the update is `COMMAND_REJECTED` carrying `p` with error `x` and `p` has a
pending entry. -/
theorem settled_rejected_iff (s : CoreConnector α) (e : ConnectorEvent α)
    (p : Nat) (x : α) :
    (p, Outcome.rejected x) ∈ (connectorStep s e).settled ↔
      ((p, Outcome.rejected x) ∈ s.settled ∨
        (e = ConnectorEvent.rejectedUpdate p x ∧ p ∈ s.pending)) := by
  cases e with
  | sendCmd c d => simp [connectorStep, CoreConnector.sendCommand]
  | promiseCmd c d => simp [connectorStep, CoreConnector.promiseCommand]
  | rejectedUpdate p' x' =>
      simp only [connectorStep, CoreConnector.handleRequestRejected_]
      by_cases hp : p' ∈ s.pending
      · rw [if_pos hp]
        simp only [List.mem_append, List.mem_singleton, Prod.mk.injEq,
          Outcome.rejected.injEq, ConnectorEvent.rejectedUpdate.injEq]
        constructor
        · rintro (h | ⟨rfl, rfl⟩)
          · exact Or.inl h
          · exact Or.inr ⟨⟨rfl, rfl⟩, hp⟩
        · rintro (h | ⟨⟨rfl, rfl⟩, _⟩)
          · exact Or.inl h
          · exact Or.inr ⟨rfl, rfl⟩
      · rw [if_neg hp]
        constructor
        · exact Or.inl
        · rintro (h | ⟨heq, hmem⟩)
          · exact h
          · injection heq with hp1 hx1
            subst hp1
            exact absurd hmem hp
  | fulfilledUpdate p' a' =>
      simp only [connectorStep, CoreConnector.handleRequestFulfilled_]
      by_cases hp : p' ∈ s.pending
      · rw [if_pos hp]
        simp only [List.mem_append, List.mem_singleton, Prod.mk.injEq]
        constructor
        · rintro (h | ⟨rfl, h2⟩)
          · exact Or.inl h
          · exact absurd h2 (by simp)
        · rintro (h | ⟨heq, hmem⟩)
          · exact Or.inl h
          · exact absurd heq (by simp)
      · rw [if_neg hp]
        constructor
        · exact Or.inl
        · rintro (h | ⟨heq, hmem⟩)
          · exact h
          · exact absurd heq (by simp)

/-- C1: every `promiseCommand` call sends exactly one payload carrying a
fresh nonzero `promiseId` — distinct from the id of every payload sent
earlier (so from every earlier `promiseCommand` id and from the 0 used by
`sendCommand`) — and registers the returned promise under that id; and the
promise registered under an id is fulfilled with the update's
`argsForCallback` exactly when a `COMMAND_FULFILLED` update carrying that id
is handled, and rejected with the update's `errorForCallback` exactly when a
`COMMAND_REJECTED` update carrying that id is handled. -/
theorem promiseCommand_fresh_id_and_correlation (α : Type)
    (evs : List (ConnectorEvent α)) (c : Nat) (d : Option α)
    (e : ConnectorEvent α) :
    ((runConnector evs).promiseCommand c d).1.sent =
      (runConnector evs).sent ++
        [⟨"emit", c, d, (runConnector evs).promiseId_ + 1⟩] ∧
    ((runConnector evs).promiseCommand c d).2 =
      (runConnector evs).promiseId_ + 1 ∧
    ((runConnector evs).promiseCommand c d).1.pending =
      ((runConnector evs).promiseId_ + 1) :: (runConnector evs).pending ∧
    (runConnector evs).promiseId_ + 1 ≠ 0 ∧
    (∀ q ∈ (runConnector evs).sent,
      q.promiseId ≠ (runConnector evs).promiseId_ + 1) ∧
    (∀ (s : CoreConnector α) (p : Nat) (a : α),
      (p, Outcome.fulfilled a) ∈ (connectorStep s e).settled ↔
        ((p, Outcome.fulfilled a) ∈ s.settled ∨
          (e = ConnectorEvent.fulfilledUpdate p a ∧ p ∈ s.pending))) ∧
    (∀ (s : CoreConnector α) (p : Nat) (x : α),
      (p, Outcome.rejected x) ∈ (connectorStep s e).settled ↔
        ((p, Outcome.rejected x) ∈ s.settled ∨
          (e = ConnectorEvent.rejectedUpdate p x ∧ p ∈ s.pending))) := by
  obtain ⟨h1, h2, h3, h4⟩ := connInv_run (α := α) evs
  refine ⟨rfl, rfl, rfl, Nat.succ_ne_zero _, ?_, ?_, ?_⟩
  · intro q hq heq
    have hle := h2 q hq
    rw [heq] at hle
    exact absurd hle (Nat.not_succ_le_self _)
  · intro s p a
    exact settled_fulfilled_iff s e p a
  · intro s p x
    exact settled_rejected_iff s e p x

theorem promiseCommand_fresh_id_and_correlation_witness :
    ((runConnector ([ConnectorEvent.promiseCmd 7 (some 9)] :
        List (ConnectorEvent Nat))).promiseCommand 3 none).2 = 3 ∧
    ((2 : Nat), Outcome.fulfilled (5 : Nat)) ∈
      (connectorStep
        (runConnector ([ConnectorEvent.promiseCmd 7 (some 9)] :
          List (ConnectorEvent Nat)))
        (ConnectorEvent.fulfilledUpdate 2 5)).settled := by
  have h := promiseCommand_fresh_id_and_correlation Nat
    [ConnectorEvent.promiseCmd 7 (some 9)] 3 none
    (ConnectorEvent.fulfilledUpdate 2 5)
  refine ⟨h.2.1.trans (by decide), ?_⟩
  have hiff := h.2.2.2.2.2.1
    (runConnector [ConnectorEvent.promiseCmd 7 (some 9)]) 2 5
  exact hiff.mpr (Or.inr ⟨rfl, by decide⟩)

/-- C9: each promise id is settled at most once.  Handling a
`COMMAND_FULFILLED` or `COMMAND_REJECTED` update for id `p` deletes the
pending entry for `p`, so any later update carrying `p` — and any update
whose id has no pending entry — settles no promise and leaves the
correlation map and all other pending entries unchanged. -/
theorem promiseId_settled_at_most_once (α : Type)
    (evs : List (ConnectorEvent α)) (p : Nat) (a b : α) :
    p ∉ ((runConnector evs).handleRequestFulfilled_ p a).pending ∧
    p ∉ ((runConnector evs).handleRequestRejected_ p a).pending ∧
    (p ∉ (runConnector evs).pending →
      (runConnector evs).handleRequestFulfilled_ p a = runConnector evs ∧
      (runConnector evs).handleRequestRejected_ p a = runConnector evs) ∧
    ((runConnector evs).handleRequestFulfilled_ p a).handleRequestFulfilled_ p b =
      (runConnector evs).handleRequestFulfilled_ p a ∧
    ((runConnector evs).handleRequestFulfilled_ p a).handleRequestRejected_ p b =
      (runConnector evs).handleRequestFulfilled_ p a ∧
    ((runConnector evs).handleRequestRejected_ p a).handleRequestFulfilled_ p b =
      (runConnector evs).handleRequestRejected_ p a ∧
    ((runConnector evs).handleRequestRejected_ p a).handleRequestRejected_ p b =
      (runConnector evs).handleRequestRejected_ p a ∧
    (∀ q ∈ (runConnector evs).pending, q ≠ p →
      q ∈ ((runConnector evs).handleRequestFulfilled_ p a).pending ∧
      q ∈ ((runConnector evs).handleRequestRejected_ p a).pending) := by
  obtain ⟨h1, h2, h3, h4⟩ := connInv_run (α := α) evs
  have hnfF : ∀ (x : α), p ∉ ((runConnector evs).handleRequestFulfilled_ p x).pending := by
    intro x
    unfold CoreConnector.handleRequestFulfilled_
    by_cases hp : p ∈ (runConnector evs).pending
    · rw [if_pos hp]
      exact h4.not_mem_erase
    · rw [if_neg hp]
      exact hp
  have hnfR : ∀ (x : α), p ∉ ((runConnector evs).handleRequestRejected_ p x).pending := by
    intro x
    unfold CoreConnector.handleRequestRejected_
    by_cases hp : p ∈ (runConnector evs).pending
    · rw [if_pos hp]
      exact h4.not_mem_erase
    · rw [if_neg hp]
      exact hp
  have noopF : ∀ (s : CoreConnector α) (x : α), p ∉ s.pending →
      s.handleRequestFulfilled_ p x = s := by
    intro s x hp
    unfold CoreConnector.handleRequestFulfilled_
    rw [if_neg hp]
  have noopR : ∀ (s : CoreConnector α) (x : α), p ∉ s.pending →
      s.handleRequestRejected_ p x = s := by
    intro s x hp
    unfold CoreConnector.handleRequestRejected_
    rw [if_neg hp]
  refine ⟨hnfF a, hnfR a, fun hp => ⟨noopF _ a hp, noopR _ a hp⟩,
    noopF _ b (hnfF a), noopR _ b (hnfF a), noopF _ b (hnfR a),
    noopR _ b (hnfR a), ?_⟩
  intro q hq hqp
  constructor
  · unfold CoreConnector.handleRequestFulfilled_
    by_cases hp : p ∈ (runConnector evs).pending
    · rw [if_pos hp]
      exact (List.mem_erase_of_ne hqp).mpr hq
    · rw [if_neg hp]
      exact hq
  · unfold CoreConnector.handleRequestRejected_
    by_cases hp : p ∈ (runConnector evs).pending
    · rw [if_pos hp]
      exact (List.mem_erase_of_ne hqp).mpr hq
    · rw [if_neg hp]
      exact hq

theorem promiseId_settled_at_most_once_witness :
    (2 : Nat) ∉ ((runConnector ([ConnectorEvent.promiseCmd 7 none] :
      List (ConnectorEvent Nat))).handleRequestFulfilled_ 2 5).pending :=
  (promiseId_settled_at_most_once Nat [ConnectorEvent.promiseCmd 7 none] 2 5 6).1

/-! ## Part 2: UI.User (generic_ui/scripts/user.ts) -/

inductive GettingConsentState where
  | LOCAL_REQUESTED_REMOTE_GRANTED
  | LOCAL_REQUESTED_REMOTE_NO_ACTION
  | REMOTE_OFFERED_LOCAL_NO_ACTION
  | REMOTE_OFFERED_LOCAL_IGNORED
  | NO_OFFER_OR_REQUEST
  deriving DecidableEq

inductive SharingConsentState where
  | LOCAL_OFFERED_REMOTE_ACCEPTED
  | LOCAL_OFFERED_REMOTE_NO_ACTION
  | REMOTE_REQUESTED_LOCAL_NO_ACTION
  | REMOTE_REQUESTED_LOCAL_IGNORED
  | NO_OFFER_OR_REQUEST
  deriving DecidableEq

structure ConsentState where
  localRequestsAccessFromRemote : Bool
  ignoringRemoteUserOffer : Bool
  remoteRequestsAccessFromLocal : Bool
  localGrantsAccessToRemote : Bool
  ignoringRemoteUserRequest : Bool
  deriving DecidableEq

/-- A `UI.Instance`; `description` uses the empty string for the absent /
falsy description. -/
structure UIInstance where
  instanceId : String
  description : String
  deriving DecidableEq

structure UserProfileMessage where
  userId : String
  name : String
  /-- `none` models an absent (`undefined`) `imageData`. -/
  imageData : Option String
  deriving DecidableEq

structure UserMessage where
  user : UserProfileMessage
  offeringInstances : List UIInstance
  allInstanceIds : List String
  consent : ConsentState
  isOnline : Bool
  deriving DecidableEq

/-- External constant `UI.DEFAULT_USER_IMG` (value irrelevant here). -/
def DEFAULT_USER_IMG : String := "default-user-img"

/-- JavaScript `a || b` on an optional string (`undefined` and `""` are
falsy). -/
def jsOrString (v : Option String) (dflt : String) : String :=
  match v with
  | some s => if s = "" then dflt else s
  | none => dflt

structure User where
  userId : String
  name : String
  imageData : String
  isGettingFromMe : Bool
  isSharingWithMe : Bool
  offeringInstances : List UIInstance
  allInstanceIds : List String
  consent_ : ConsentState
  gettingConsentState : GettingConsentState
  sharingConsentState : SharingConsentState
  isOnline_ : Bool
  deriving DecidableEq

/-- `updateInstanceDescriptions`: leaves descriptions unchanged for 0 or 1
instances; otherwise sets each falsy description to `"Computer " + (i+1)`. -/
def User.updateInstanceDescriptions (instances : List UIInstance) :
    List UIInstance :=
  if instances.length ≤ 1 then instances
  else
    instances.mapIdx (fun i inst =>
      if inst.description = "" then
        { inst with description := "Computer " ++ toString (i + 1) }
      else inst)

/-- `User.update`: updates user details from a `UserMessage` payload and
recomputes `gettingConsentState` and `sharingConsentState`.  (A `userId`
mismatch only logs `console.error` in the source and changes nothing, so it
does not appear in the model.) -/
def User.update (u : User) (payload : UserMessage) : User :=
  let offering := User.updateInstanceDescriptions payload.offeringInstances
  let getting :=
    if 0 < offering.length then
      if payload.consent.localRequestsAccessFromRemote then
        GettingConsentState.LOCAL_REQUESTED_REMOTE_GRANTED
      else if payload.consent.ignoringRemoteUserOffer then
        GettingConsentState.REMOTE_OFFERED_LOCAL_IGNORED
      else
        GettingConsentState.REMOTE_OFFERED_LOCAL_NO_ACTION
    else
      if payload.consent.localRequestsAccessFromRemote then
        GettingConsentState.LOCAL_REQUESTED_REMOTE_NO_ACTION
      else
        GettingConsentState.NO_OFFER_OR_REQUEST
  let sharing :=
    if payload.consent.remoteRequestsAccessFromLocal then
      if payload.consent.localGrantsAccessToRemote then
        SharingConsentState.LOCAL_OFFERED_REMOTE_ACCEPTED
      else if payload.consent.ignoringRemoteUserRequest then
        SharingConsentState.REMOTE_REQUESTED_LOCAL_IGNORED
      else
        SharingConsentState.REMOTE_REQUESTED_LOCAL_NO_ACTION
    else
      if payload.consent.localGrantsAccessToRemote then
        SharingConsentState.LOCAL_OFFERED_REMOTE_NO_ACTION
      else
        SharingConsentState.NO_OFFER_OR_REQUEST
  { u with
      name := payload.user.name,
      imageData := jsOrString payload.user.imageData DEFAULT_USER_IMG,
      offeringInstances := offering,
      allInstanceIds := payload.allInstanceIds,
      consent_ := payload.consent,
      isOnline_ := payload.isOnline,
      gettingConsentState := getting,
      sharingConsentState := sharing }

theorem updateInstanceDescriptions_length (instances : List UIInstance) :
    (User.updateInstanceDescriptions instances).length = instances.length := by
  unfold User.updateInstanceDescriptions
  by_cases h : instances.length ≤ 1
  · rw [if_pos h]
  · rw [if_neg h]
    simp

/-- After `User.update`, `gettingConsentState` is the stated function of
`offeringInstances.length > 0`, `localRequestsAccessFromRemote` and
`ignoringRemoteUserOffer`. -/
theorem update_gettingConsentState_eq (u : User) (p : UserMessage) :
    (User.update u p).gettingConsentState =
      (if 0 < p.offeringInstances.length then
        if p.consent.localRequestsAccessFromRemote then
          GettingConsentState.LOCAL_REQUESTED_REMOTE_GRANTED
        else if p.consent.ignoringRemoteUserOffer then
          GettingConsentState.REMOTE_OFFERED_LOCAL_IGNORED
        else
          GettingConsentState.REMOTE_OFFERED_LOCAL_NO_ACTION
      else
        if p.consent.localRequestsAccessFromRemote then
          GettingConsentState.LOCAL_REQUESTED_REMOTE_NO_ACTION
        else
          GettingConsentState.NO_OFFER_OR_REQUEST) := by
  unfold User.update
  simp only [updateInstanceDescriptions_length]

/-- C10: after `User.update`, a payload with a non-empty `offeringInstances`
and `consent.localRequestsAccessFromRemote` set yields
`LOCAL_REQUESTED_REMOTE_GRANTED` regardless of every other consent flag; and
in general the resulting `gettingConsentState` is determined solely by
`offeringInstances.length > 0`, `consent.localRequestsAccessFromRemote` and
`consent.ignoringRemoteUserOffer`. -/
theorem update_gettingConsentState_determined (u1 u2 : User)
    (p1 p2 : UserMessage) :
    (p1.offeringInstances ≠ [] →
      p1.consent.localRequestsAccessFromRemote = true →
      (User.update u1 p1).gettingConsentState =
        GettingConsentState.LOCAL_REQUESTED_REMOTE_GRANTED) ∧
    ((0 < p1.offeringInstances.length ↔ 0 < p2.offeringInstances.length) →
      p1.consent.localRequestsAccessFromRemote =
        p2.consent.localRequestsAccessFromRemote →
      p1.consent.ignoringRemoteUserOffer = p2.consent.ignoringRemoteUserOffer →
      (User.update u1 p1).gettingConsentState =
        (User.update u2 p2).gettingConsentState) := by
  constructor
  · intro hne hlra
    rw [update_gettingConsentState_eq,
      if_pos (List.length_pos.mpr hne), if_pos hlra]
  · intro hlen hlra hiro
    rw [update_gettingConsentState_eq, update_gettingConsentState_eq,
      hlra, hiro]
    by_cases h01 : 0 < p1.offeringInstances.length
    · rw [if_pos h01, if_pos (hlen.mp h01)]
    · rw [if_neg h01, if_neg (fun h => h01 (hlen.mpr h))]

theorem update_gettingConsentState_determined_witness :
    (User.update
      ⟨"u1", "", "", false, false, [], [], ⟨false, false, false, false, false⟩,
        GettingConsentState.NO_OFFER_OR_REQUEST,
        SharingConsentState.NO_OFFER_OR_REQUEST, false⟩
      ⟨⟨"u1", "alice", none⟩, [⟨"i1", ""⟩], ["i1"],
        ⟨true, true, true, true, true⟩, true⟩).gettingConsentState =
      GettingConsentState.LOCAL_REQUESTED_REMOTE_GRANTED :=
  (update_gettingConsentState_determined
    ⟨"u1", "", "", false, false, [], [], ⟨false, false, false, false, false⟩,
      GettingConsentState.NO_OFFER_OR_REQUEST,
      SharingConsentState.NO_OFFER_OR_REQUEST, false⟩
    ⟨"u1", "", "", false, false, [], [], ⟨false, false, false, false, false⟩,
      GettingConsentState.NO_OFFER_OR_REQUEST,
      SharingConsentState.NO_OFFER_OR_REQUEST, false⟩
    ⟨⟨"u1", "alice", none⟩, [⟨"i1", ""⟩], ["i1"],
      ⟨true, true, true, true, true⟩, true⟩
    ⟨⟨"u1", "alice", none⟩, [⟨"i1", ""⟩], ["i1"],
      ⟨true, true, true, true, true⟩, true⟩).1 (by decide) rfl

/-! ## Part 3: the SOCKS piece / coupler / session layer

`lib/socks/piece.ts` only declares the `SocksPiece` interface; the
registration semantics and the session / coupler implementations are absent
from the sources and are modelled from the specification (sections 3, 4.1,
4.2, 4.4 and 8). -/

/-! ### Piece wiring (C4)

Modelled from the spec: "Each Piece instance holds at most one registered
outbound-data sink and one registered disconnect observer at a time;
re-registering replaces the prior one."  Callbacks are identified by ids. -/

structure PieceWiring where
  dataSink : Option Nat
  disconnectObserver : Option Nat
  deriving DecidableEq

def PieceWiring.empty : PieceWiring := ⟨none, none⟩

/-- `onDataForSocksClient(callback)`: registers `callback` as the outbound
data sink (replacing any prior one) and returns the piece. -/
def PieceWiring.onDataForSocksClient (p : PieceWiring) (callback : Nat) :
    PieceWiring :=
  { p with dataSink := some callback }

/-- `onDisconnect(callback)`: registers `callback` as the disconnect
observer (replacing any prior one) and returns the piece. -/
def PieceWiring.onDisconnect (p : PieceWiring) (callback : Nat) :
    PieceWiring :=
  { p with disconnectObserver := some callback }

/-- The callbacks an outbound emission would reach. -/
def PieceWiring.emitTargets (p : PieceWiring) : List Nat :=
  match p.dataSink with
  | some cb => [cb]
  | none => []

/-- The callbacks a disconnect notification would reach. -/
def PieceWiring.disconnectTargets (p : PieceWiring) : List Nat :=
  match p.disconnectObserver with
  | some cb => [cb]
  | none => []

inductive WiringEvent where
  | registerData (callback : Nat)
  | registerDisconnect (callback : Nat)
  deriving DecidableEq

def applyWiring (p : PieceWiring) : WiringEvent → PieceWiring
  | .registerData cb => p.onDataForSocksClient cb
  | .registerDisconnect cb => p.onDisconnect cb

def applyWirings (p : PieceWiring) (evs : List WiringEvent) : PieceWiring :=
  evs.foldl applyWiring p

/-! ### Coupler (C3)

Modelled from the spec: `couple(a, b)` sets each side's outbound sink to the
other's inbound handler and "sets both disconnect observers to a shared
guarded handler that, on first trigger from either side, calls
`acceptDisconnect()` on the *other* side exactly once and then becomes a
no-op".  A disconnect trigger on a side runs that side's `acceptDisconnect`
(idempotent, per the Piece contract), which fires its observer — the shared
guarded handler — which in turn calls `acceptDisconnect` on the other side,
whose own observer fires the handler again (now guarded off). -/

inductive CouplerSide where
  | A
  | B
  deriving DecidableEq

structure CoupledPair where
  aClosed : Bool
  bClosed : Bool
  /-- the shared guard: whether the guarded handler has already fired -/
  fired : Bool
  /-- number of invocations of a's `acceptDisconnect` -/
  aCount : Nat
  /-- number of invocations of b's `acceptDisconnect` -/
  bCount : Nat
  deriving DecidableEq

/-- The freshly coupled pair produced by `couple(a, b)`. -/
def couple : CoupledPair := ⟨false, false, false, 0, 0⟩

/-- A disconnect trigger arriving at one side of the coupled pair. -/
def triggerDisconnect (w : CoupledPair) : CouplerSide → CoupledPair
  | .A =>
      if w.aClosed then w
      else
        let w1 : CoupledPair :=
          { w with aClosed := true, aCount := w.aCount + 1 }
        if w1.fired then w1
        else
          let w2 : CoupledPair := { w1 with fired := true }
          if w2.bClosed then w2
          else { w2 with bClosed := true, bCount := w2.bCount + 1 }
  | .B =>
      if w.bClosed then w
      else
        let w1 : CoupledPair :=
          { w with bClosed := true, bCount := w.bCount + 1 }
        if w1.fired then w1
        else
          let w2 : CoupledPair := { w1 with fired := true }
          if w2.aClosed then w2
          else { w2 with aClosed := true, aCount := w2.aCount + 1 }

def runTriggers (triggers : List CouplerSide) : CoupledPair :=
  triggers.foldl triggerDisconnect couple

/-! ### SocksSession state machine (C2, C5, C6, C7, C8)

Modelled from the spec, section 4.4: a byte-stream parser that accumulates a
pending-bytes buffer and only consumes complete fields, driven here one byte
at a time through `handleDataFromSocksClient` (the `SocksPiece` inbound
entry point).  Bytes are `Nat`s (values 0–255 on the wire).  Outbound
behaviour is observed through a list of `SessionEffect`s. -/

inductive SessionState where
  | INIT
  | AWAIT_REQUEST
  | AWAIT_CONNECT_RESULT
  | RELAYING
  | CLOSED
  deriving DecidableEq

/-- The parsed target of a CONNECT request. -/
inductive Destination where
  | ipv4 (addr : List Nat) (port : Nat)
  | domainName (name : List Nat) (port : Nat)
  | ipv6 (addr : List Nat) (port : Nat)
  deriving DecidableEq

/-- Observable outbound behaviour of a session. -/
inductive SessionEffect where
  /-- bytes emitted to the SOCKS client (a protocol reply) -/
  | reply (bytes : List Nat)
  /-- the resolved `Destination` emitted to the server -/
  | resolve (dest : Destination)
  /-- bytes passed through to the coupled forwarding peer -/
  | forward (bytes : List Nat)
  /-- the disconnect notification to the observer -/
  | disconnected
  deriving DecidableEq

structure SocksSession where
  state : SessionState
  /-- pending bytes of the partially received frame -/
  buffer : List Nat
  /-- client bytes buffered while awaiting the connect result -/
  relayBuffer : List Nat
  deriving DecidableEq

def initSession : SocksSession := ⟨.INIT, [], []⟩

def closedSession : SocksSession := ⟨.CLOSED, [], []⟩

/-- SOCKS5 error reply with the given REP code (`BND.ADDR = 0.0.0.0`,
`BND.PORT = 0`). -/
def errReply (rep : Nat) : List Nat := [5, rep, 0, 1, 0, 0, 0, 0, 0, 0]

/-- SOCKS5 success reply `VER=5, REP=0, RSV=0, ATYP=1, 0.0.0.0:0`. -/
def successReply : List Nat := [5, 0, 0, 1, 0, 0, 0, 0, 0, 0]

/-- big-endian port from the first two bytes -/
def portOf (l : List Nat) : Nat := 256 * l.getD 0 0 + l.getD 1 0

/-- Expected total length of a request frame, from the ATYP byte (and, for
domain names, the length byte): `0x01` → 4-byte IPv4, `0x03` → 1-byte length
plus that many domain bytes, `0x04` → 16-byte IPv6, plus the 4 header bytes
and the 2 port bytes. -/
def reqExpected (buf : List Nat) : Option Nat :=
  match buf.getD 3 0 with
  | 1 => some 10
  | 3 =>
      match buf.get? 4 with
      | some len => some (7 + len)
      | none => none
  | 4 => some 22
  | _ => none

/-- Parse the `Destination` out of a complete request frame. -/
def parseRequest (buf : List Nat) : Destination :=
  match buf.getD 3 0 with
  | 1 => .ipv4 ((buf.drop 4).take 4) (portOf ((buf.drop 4).drop 4))
  | 3 =>
      let len := buf.getD 4 0
      .domainName ((buf.drop 5).take len) (portOf ((buf.drop 5).drop len))
  | 4 => .ipv6 ((buf.drop 4).take 16) (portOf ((buf.drop 4).drop 16))
  | _ => .ipv4 [] 0

/-- One inbound byte.  INIT and AWAIT_REQUEST accumulate the frame buffer
and act once a complete field/frame is available; AWAIT_CONNECT_RESULT
buffers; RELAYING passes through; CLOSED ignores. -/
def stepByte (s : SocksSession) (b : Nat) : SocksSession × List SessionEffect :=
  match s.state with
  | .CLOSED => (s, [])
  | .RELAYING => (s, [.forward [b]])
  | .AWAIT_CONNECT_RESULT => ({ s with relayBuffer := s.relayBuffer ++ [b] }, [])
  | .INIT =>
      match s.buffer ++ [b] with
      | [] => (s, [])
      | [v] =>
          if v = 5 then ({ s with buffer := [v] }, [])
          else (closedSession, [.disconnected])
      | v :: n :: methods =>
          if methods.length = n then
            if 0 ∈ methods then (⟨.AWAIT_REQUEST, [], []⟩, [.reply [5, 0]])
            else (closedSession, [.reply [5, 255], .disconnected])
          else ({ s with buffer := v :: n :: methods }, [])
  | .AWAIT_REQUEST =>
      match s.buffer ++ [b] with
      | [] => (s, [])
      | [v] =>
          if v = 5 then ({ s with buffer := [v] }, [])
          else (closedSession, [.disconnected])
      | [v, cmd] =>
          if cmd = 1 then ({ s with buffer := [v, cmd] }, [])
          else (closedSession, [.reply (errReply 7), .disconnected])
      | [v, cmd, rsv] => ({ s with buffer := [v, cmd, rsv] }, [])
      | [v, cmd, rsv, atyp] =>
          if atyp = 1 ∨ atyp = 3 ∨ atyp = 4 then
            ({ s with buffer := [v, cmd, rsv, atyp] }, [])
          else (closedSession, [.reply (errReply 8), .disconnected])
      | buf =>
          match reqExpected buf with
          | some e =>
              if buf.length = e then
                (⟨.AWAIT_CONNECT_RESULT, [], []⟩, [.resolve (parseRequest buf)])
              else ({ s with buffer := buf }, [])
          | none => (closedSession, [.disconnected])

/-- `handleDataFromSocksClient` (the Piece inbound entry point,
`acceptInbound`): delivers a chunk byte by byte. -/
def handleDataFromSocksClient (s : SocksSession) :
    List Nat → SocksSession × List SessionEffect
  | [] => (s, [])
  | b :: rest =>
      let r := stepByte s b
      let r2 := handleDataFromSocksClient r.1 rest
      (r2.1, r.2 ++ r2.2)

/-- Delivery of a list of chunks through successive
`handleDataFromSocksClient` calls. -/
def handleChunks (s : SocksSession) :
    List (List Nat) → SocksSession × List SessionEffect
  | [] => (s, [])
  | c :: rest =>
      let r := handleDataFromSocksClient s c
      let r2 := handleChunks r.1 rest
      (r2.1, r.2 ++ r2.2)

/-- `handleDisconnect` (`acceptDisconnect`): on first call closes the
session, releases the buffers and notifies the disconnect observer;
afterwards a no-op. -/
def SocksSession.handleDisconnect (s : SocksSession) :
    SocksSession × List SessionEffect :=
  if s.state = .CLOSED then (s, []) else (closedSession, [.disconnected])

/-- The server's connect outcome delivered to a session awaiting it:
`none` = success (reply `0x00`, flush the buffered client bytes, enter
RELAYING), `some rep` = failure with mapped REP code (send that reply, then
disconnect). -/
def handleConnectResult (s : SocksSession) (failure : Option Nat) :
    SocksSession × List SessionEffect :=
  if s.state = .AWAIT_CONNECT_RESULT then
    match failure with
    | none =>
        (⟨.RELAYING, [], []⟩,
          .reply successReply ::
            (if s.relayBuffer = [] then [] else [.forward s.relayBuffer]))
    | some rep => (closedSession, [.reply (errReply rep), .disconnected])
  else (s, [])

/-- A byte sequence that is exactly a valid SOCKS5 no-auth handshake
followed by a valid CONNECT request. -/
def ValidRequest (req : List Nat) : Prop :=
  (∃ rsv a1 a2 a3 a4 p1 p2, req = [5, 1, rsv, 1, a1, a2, a3, a4, p1, p2]) ∨
  (∃ rsv dom p1 p2,
    req = 5 :: 1 :: rsv :: 3 :: dom.length :: (dom ++ [p1, p2])) ∨
  (∃ rsv addr p1 p2, List.length addr = 16 ∧
    req = 5 :: 1 :: rsv :: 4 :: (addr ++ [p1, p2]))

def ValidHandshakeRequest (bs : List Nat) : Prop :=
  ∃ n methods req, bs = 5 :: n :: methods ++ req ∧
    List.length methods = n ∧ 0 ∈ methods ∧ ValidRequest req

theorem handleData_append (s : SocksSession) (xs ys : List Nat) :
    handleDataFromSocksClient s (xs ++ ys) =
      ((handleDataFromSocksClient (handleDataFromSocksClient s xs).1 ys).1,
        (handleDataFromSocksClient s xs).2 ++
          (handleDataFromSocksClient (handleDataFromSocksClient s xs).1 ys).2) := by
  induction xs generalizing s with
  | nil => simp [handleDataFromSocksClient]
  | cons b rest ih =>
      simp only [List.cons_append, handleDataFromSocksClient]
      rw [show (rest.append ys) = rest ++ ys from rfl, ih]
      simp [List.append_assoc]

theorem handleChunks_eq_join (s : SocksSession) (chunks : List (List Nat)) :
    handleChunks s chunks = handleDataFromSocksClient s chunks.flatten := by
  induction chunks generalizing s with
  | nil => simp [handleChunks, handleDataFromSocksClient]
  | cons c rest ih =>
      simp only [handleChunks, List.flatten_cons]
      rw [handleData_append, ih]

theorem stepByte_closed (s : SocksSession) (b : Nat)
    (h : s.state = .CLOSED) : stepByte s b = (s, []) := by
  unfold stepByte
  rw [h]

theorem handleData_closed (s : SocksSession) (bs : List Nat)
    (h : s.state = .CLOSED) : handleDataFromSocksClient s bs = (s, []) := by
  induction bs with
  | nil => rfl
  | cons b rest ih =>
      simp only [handleDataFromSocksClient, stepByte_closed s b h]
      simpa using ih

theorem handleData_cons (s : SocksSession) (b : Nat) (rest : List Nat) :
    handleDataFromSocksClient s (b :: rest) =
      ((handleDataFromSocksClient (stepByte s b).1 rest).1,
        (stepByte s b).2 ++ (handleDataFromSocksClient (stepByte s b).1 rest).2) := rfl

/-- Feeding method bytes in INIT accumulates until the frame is complete,
then answers the handshake. -/
theorem initFeed (ms : List Nat) (rest : List Nat) (n : Nat) (rb : List Nat)
    (hlen : rest.length + ms.length = n) (hne : ms ≠ []) :
    handleDataFromSocksClient ⟨.INIT, 5 :: n :: rest, rb⟩ ms =
      if 0 ∈ rest ++ ms then (⟨.AWAIT_REQUEST, [], []⟩, [.reply [5, 0]])
      else (closedSession, [.reply [5, 255], .disconnected]) := by
  induction ms generalizing rest with
  | nil => exact absurd rfl hne
  | cons m ms ih =>
      rw [handleData_cons]
      cases ms with
      | nil =>
          have hstep : stepByte ⟨.INIT, 5 :: n :: rest, rb⟩ m =
              if 0 ∈ rest ++ [m] then (⟨.AWAIT_REQUEST, [], []⟩, [.reply [5, 0]])
              else (closedSession, [.reply [5, 255], .disconnected]) := by
            simp only [stepByte, List.cons_append]
            rw [if_pos (by simpa using hlen)]
          rw [hstep]
          by_cases h0 : 0 ∈ rest ++ [m]
          · rw [if_pos h0]
            rfl
          · rw [if_neg h0]
            rfl
      | cons m2 ms2 =>
          have hstep : stepByte ⟨.INIT, 5 :: n :: rest, rb⟩ m =
              (⟨.INIT, 5 :: n :: (rest ++ [m]), rb⟩, []) := by
            simp only [stepByte, List.cons_append]
            rw [if_neg (by
              simp only [List.length_cons, List.length_append,
                List.length_nil] at hlen ⊢
              omega)]
          rw [hstep]
          dsimp only
          have hlen2 : (rest ++ [m]).length + (m2 :: ms2).length = n := by
            simp only [List.length_cons, List.length_append, List.length_nil] at hlen ⊢
            omega
          rw [ih (rest ++ [m]) hlen2 (by simp)]
          have hl : (rest ++ [m]) ++ m2 :: ms2 = rest ++ m :: m2 :: ms2 := by
            rw [List.append_assoc, List.singleton_append]
          rw [hl]
          by_cases h0 : 0 ∈ rest ++ m :: m2 :: ms2
          · rw [if_pos h0]
            rfl
          · rw [if_neg h0]
            rfl

/-- Feeding address/port bytes in AWAIT_REQUEST accumulates until the
expected frame length is reached, then resolves the destination. -/
theorem reqFeed (ms : List Nat) (rsv atyp b4 : Nat) (rest rb : List Nat) (e : Nat)
    (hexp : ∀ extra : List Nat,
      reqExpected (5 :: 1 :: rsv :: atyp :: b4 :: (rest ++ extra)) = some e)
    (hlen : 5 + rest.length + ms.length = e) (hne : ms ≠ []) :
    handleDataFromSocksClient
        ⟨.AWAIT_REQUEST, 5 :: 1 :: rsv :: atyp :: b4 :: rest, rb⟩ ms =
      (⟨.AWAIT_CONNECT_RESULT, [], []⟩,
        [.resolve (parseRequest (5 :: 1 :: rsv :: atyp :: b4 :: (rest ++ ms)))]) := by
  induction ms generalizing rest with
  | nil => exact absurd rfl hne
  | cons m ms ih =>
      rw [handleData_cons]
      cases ms with
      | nil =>
          have hstep : stepByte
              ⟨.AWAIT_REQUEST, 5 :: 1 :: rsv :: atyp :: b4 :: rest, rb⟩ m =
              (⟨.AWAIT_CONNECT_RESULT, [], []⟩,
                [.resolve (parseRequest
                  (5 :: 1 :: rsv :: atyp :: b4 :: (rest ++ [m])))]) := by
            simp only [stepByte, List.cons_append, hexp [m]]
            rw [if_pos (by
              simp only [List.length_cons, List.length_append,
                List.length_nil] at hlen ⊢
              omega)]
          rw [hstep]
          rfl
      | cons m2 ms2 =>
          have hstep : stepByte
              ⟨.AWAIT_REQUEST, 5 :: 1 :: rsv :: atyp :: b4 :: rest, rb⟩ m =
              (⟨.AWAIT_REQUEST, 5 :: 1 :: rsv :: atyp :: b4 :: (rest ++ [m]), rb⟩,
                []) := by
            simp only [stepByte, List.cons_append, hexp [m]]
            rw [if_neg (by
              simp only [List.length_cons, List.length_append,
                List.length_nil] at hlen ⊢
              omega)]
          rw [hstep]
          dsimp only
          rw [ih (rest ++ [m])
            (fun extra => by
              rw [List.append_assoc]
              exact hexp ([m] ++ extra))
            (by
              simp only [List.length_cons, List.length_append,
                List.length_nil] at hlen ⊢
              omega)
            (by simp)]
          rw [List.append_assoc]
          rfl

/-- Running a whole handshake frame from a fresh session. -/
theorem handshake_run (n : Nat) (methods : List Nat)
    (hlen : methods.length = n) :
    handleDataFromSocksClient initSession (5 :: n :: methods) =
      if 0 ∈ methods then (⟨.AWAIT_REQUEST, [], []⟩, [.reply [5, 0]])
      else (closedSession, [.reply [5, 255], .disconnected]) := by
  have hpre : handleDataFromSocksClient initSession (5 :: n :: methods) =
      handleDataFromSocksClient ⟨.INIT, [5], []⟩ (n :: methods) := by
    rw [handleData_cons]
    rfl
  cases methods with
  | nil =>
      have hn : n = 0 := by simpa using hlen.symm
      subst hn
      rw [if_neg (by simp)]
      rw [hpre]
      rfl
  | cons m0 ms0 =>
      have hn : n ≠ 0 := by
        rw [← hlen]
        simp
      have hstep2 : stepByte ⟨.INIT, [5], []⟩ n =
          (⟨.INIT, [5, n], []⟩, []) := by
        simp only [stepByte, List.cons_append, List.nil_append]
        rw [if_neg (by simpa using fun h => hn h.symm)]
      rw [hpre, handleData_cons, hstep2]
      dsimp only
      rw [initFeed (m0 :: ms0) [] n [] (by simpa using hlen) (by simp)]
      rfl

/-- An unsupported CMD byte is answered with REP `0x07` and disconnect,
whatever follows. -/
theorem request_cmd_err (cmd : Nat) (rest : List Nat) (hc : cmd ≠ 1) :
    handleDataFromSocksClient ⟨.AWAIT_REQUEST, [], []⟩ (5 :: cmd :: rest) =
      (closedSession, [.reply (errReply 7), .disconnected]) := by
  rw [handleData_cons]
  have h1 : stepByte ⟨.AWAIT_REQUEST, [], []⟩ 5 =
      (⟨.AWAIT_REQUEST, [5], []⟩, []) := rfl
  rw [h1]
  dsimp only
  rw [handleData_cons]
  have h2 : stepByte ⟨.AWAIT_REQUEST, [5], []⟩ cmd =
      (closedSession, [.reply (errReply 7), .disconnected]) := by
    simp only [stepByte, List.cons_append, List.nil_append]
    rw [if_neg hc]
  rw [h2]
  dsimp only
  rw [handleData_closed _ rest rfl]
  rfl

/-- An unsupported ATYP byte is answered with REP `0x08` and disconnect,
whatever follows. -/
theorem request_atyp_err (rsv atyp : Nat) (rest : List Nat)
    (ha : ¬(atyp = 1 ∨ atyp = 3 ∨ atyp = 4)) :
    handleDataFromSocksClient ⟨.AWAIT_REQUEST, [], []⟩
        (5 :: 1 :: rsv :: atyp :: rest) =
      (closedSession, [.reply (errReply 8), .disconnected]) := by
  rw [handleData_cons]
  have h1 : stepByte ⟨.AWAIT_REQUEST, [], []⟩ 5 =
      (⟨.AWAIT_REQUEST, [5], []⟩, []) := rfl
  rw [h1]
  dsimp only
  rw [handleData_cons]
  have h2 : stepByte ⟨.AWAIT_REQUEST, [5], []⟩ 1 =
      (⟨.AWAIT_REQUEST, [5, 1], []⟩, []) := rfl
  rw [h2]
  dsimp only
  rw [handleData_cons]
  have h3 : stepByte ⟨.AWAIT_REQUEST, [5, 1], []⟩ rsv =
      (⟨.AWAIT_REQUEST, [5, 1, rsv], []⟩, []) := rfl
  rw [h3]
  dsimp only
  rw [handleData_cons]
  have h4 : stepByte ⟨.AWAIT_REQUEST, [5, 1, rsv], []⟩ atyp =
      (closedSession, [.reply (errReply 8), .disconnected]) := by
    simp only [stepByte, List.cons_append, List.nil_append]
    rw [if_neg ha]
  rw [h4]
  dsimp only
  rw [handleData_closed _ rest rfl]
  rfl

/-- Feeding the four header bytes with a supported ATYP only accumulates. -/
theorem request_header (rsv atyp : Nat) (bs : List Nat)
    (ha : atyp = 1 ∨ atyp = 3 ∨ atyp = 4) :
    handleDataFromSocksClient ⟨.AWAIT_REQUEST, [], []⟩
        (5 :: 1 :: rsv :: atyp :: bs) =
      handleDataFromSocksClient ⟨.AWAIT_REQUEST, [5, 1, rsv, atyp], []⟩ bs := by
  rw [handleData_cons]
  have h1 : stepByte ⟨.AWAIT_REQUEST, [], []⟩ 5 =
      (⟨.AWAIT_REQUEST, [5], []⟩, []) := rfl
  rw [h1]
  dsimp only
  rw [handleData_cons]
  have h2 : stepByte ⟨.AWAIT_REQUEST, [5], []⟩ 1 =
      (⟨.AWAIT_REQUEST, [5, 1], []⟩, []) := rfl
  rw [h2]
  dsimp only
  rw [handleData_cons]
  have h3 : stepByte ⟨.AWAIT_REQUEST, [5, 1], []⟩ rsv =
      (⟨.AWAIT_REQUEST, [5, 1, rsv], []⟩, []) := rfl
  rw [h3]
  dsimp only
  rw [handleData_cons]
  have h4 : stepByte ⟨.AWAIT_REQUEST, [5, 1, rsv], []⟩ atyp =
      (⟨.AWAIT_REQUEST, [5, 1, rsv, atyp], []⟩, []) := by
    simp only [stepByte, List.cons_append, List.nil_append]
    rw [if_pos ha]
  rw [h4]
  dsimp only
  rfl

/-- A complete IPv4 CONNECT frame resolves the 4-byte address and the
big-endian port. -/
theorem request_ipv4 (rsv a1 a2 a3 a4 p1 p2 : Nat) :
    handleDataFromSocksClient ⟨.AWAIT_REQUEST, [], []⟩
        [5, 1, rsv, 1, a1, a2, a3, a4, p1, p2] =
      (⟨.AWAIT_CONNECT_RESULT, [], []⟩,
        [.resolve (.ipv4 [a1, a2, a3, a4] (256 * p1 + p2))]) := by
  rw [show ([5, 1, rsv, 1, a1, a2, a3, a4, p1, p2] : List Nat) =
    5 :: 1 :: rsv :: 1 :: (a1 :: [a2, a3, a4, p1, p2]) from rfl]
  rw [request_header rsv 1 _ (Or.inl rfl)]
  rw [handleData_cons]
  have h5 : stepByte ⟨.AWAIT_REQUEST, [5, 1, rsv, 1], []⟩ a1 =
      (⟨.AWAIT_REQUEST, [5, 1, rsv, 1, a1], []⟩, []) := rfl
  rw [h5]
  dsimp only
  rw [show ([5, 1, rsv, 1, a1] : List Nat) =
    5 :: 1 :: rsv :: 1 :: a1 :: ([] : List Nat) from rfl]
  rw [reqFeed [a2, a3, a4, p1, p2] rsv 1 a1 [] [] 10 (fun extra => rfl) rfl
    (by simp)]
  rfl

/-- A complete domain-name CONNECT frame (one length byte, then that many
name bytes) resolves the name and the big-endian port. -/
theorem request_domain (rsv p1 p2 : Nat) (dom : List Nat) :
    handleDataFromSocksClient ⟨.AWAIT_REQUEST, [], []⟩
        (5 :: 1 :: rsv :: 3 :: dom.length :: (dom ++ [p1, p2])) =
      (⟨.AWAIT_CONNECT_RESULT, [], []⟩,
        [.resolve (.domainName dom (256 * p1 + p2))]) := by
  rw [show (5 :: 1 :: rsv :: 3 :: dom.length :: (dom ++ [p1, p2]) : List Nat) =
    5 :: 1 :: rsv :: 3 :: (dom.length :: (dom ++ [p1, p2])) from rfl]
  rw [request_header rsv 3 _ (Or.inr (Or.inl rfl))]
  rw [handleData_cons]
  have h5 : stepByte ⟨.AWAIT_REQUEST, [5, 1, rsv, 3], []⟩ dom.length =
      (⟨.AWAIT_REQUEST, [5, 1, rsv, 3, dom.length], []⟩, []) := by
    simp only [stepByte, List.cons_append, List.nil_append]
    rw [show reqExpected [5, 1, rsv, 3, dom.length] =
      some (7 + dom.length) from rfl]
    dsimp only
    rw [if_neg (by simp only [List.length_cons, List.length_nil]; omega)]
  rw [h5]
  dsimp only
  rw [show ([5, 1, rsv, 3, dom.length] : List Nat) =
    5 :: 1 :: rsv :: 3 :: dom.length :: ([] : List Nat) from rfl]
  rw [reqFeed (dom ++ [p1, p2]) rsv 3 dom.length [] [] (7 + dom.length)
    (fun extra => rfl)
    (by simp [List.length_append]; omega)
    (by simp)]
  have hparse : parseRequest
      (5 :: 1 :: rsv :: 3 :: dom.length :: ([] ++ (dom ++ [p1, p2]))) =
      .domainName dom (256 * p1 + p2) := by
    simp only [List.nil_append, parseRequest]
    rw [show ((5 :: 1 :: rsv :: 3 :: dom.length :: (dom ++ [p1, p2])).getD 3 0)
      = 3 from rfl]
    dsimp only
    rw [show ((5 :: 1 :: rsv :: 3 :: dom.length :: (dom ++ [p1, p2])).getD 4 0)
      = dom.length from rfl]
    rw [show ((5 :: 1 :: rsv :: 3 :: dom.length :: (dom ++ [p1, p2])).drop 5)
      = dom ++ [p1, p2] from rfl]
    rw [List.take_left, List.drop_left]
    rfl
  rw [hparse]
  rfl

/-- A complete IPv6 CONNECT frame (16 address bytes) resolves the address
and the big-endian port. -/
theorem request_ipv6 (rsv p1 p2 : Nat) (addr : List Nat)
    (haddr : addr.length = 16) :
    handleDataFromSocksClient ⟨.AWAIT_REQUEST, [], []⟩
        (5 :: 1 :: rsv :: 4 :: (addr ++ [p1, p2])) =
      (⟨.AWAIT_CONNECT_RESULT, [], []⟩,
        [.resolve (.ipv6 addr (256 * p1 + p2))]) := by
  cases addr with
  | nil => simp at haddr
  | cons a0 arest =>
      have h15 : arest.length = 15 := by simpa using haddr
      rw [show ((a0 :: arest) ++ [p1, p2] : List Nat) =
        a0 :: (arest ++ [p1, p2]) from rfl]
      rw [request_header rsv 4 _ (Or.inr (Or.inr rfl))]
      rw [handleData_cons]
      have h5 : stepByte ⟨.AWAIT_REQUEST, [5, 1, rsv, 4], []⟩ a0 =
          (⟨.AWAIT_REQUEST, [5, 1, rsv, 4, a0], []⟩, []) := rfl
      rw [h5]
      dsimp only
      rw [show ([5, 1, rsv, 4, a0] : List Nat) =
        5 :: 1 :: rsv :: 4 :: a0 :: ([] : List Nat) from rfl]
      rw [reqFeed (arest ++ [p1, p2]) rsv 4 a0 [] [] 22
        (fun extra => rfl)
        (by simp [List.length_append]; omega)
        (by simp)]
      have hparse : parseRequest
          (5 :: 1 :: rsv :: 4 :: a0 :: ([] ++ (arest ++ [p1, p2]))) =
          .ipv6 (a0 :: arest) (256 * p1 + p2) := by
        simp only [List.nil_append, parseRequest]
        rw [show ((5 :: 1 :: rsv :: 4 :: a0 :: (arest ++ [p1, p2])).getD 3 0)
          = 4 from rfl]
        dsimp only
        rw [show ((5 :: 1 :: rsv :: 4 :: a0 :: (arest ++ [p1, p2])).drop 4)
          = a0 :: (arest ++ [p1, p2]) from rfl]
        rw [show ((a0 :: (arest ++ [p1, p2])).take 16)
          = a0 :: ((arest ++ [p1, p2]).take 15) from rfl]
        rw [show ((a0 :: (arest ++ [p1, p2])).drop 16)
          = (arest ++ [p1, p2]).drop 15 from rfl]
        rw [← h15, List.take_left, List.drop_left]
        rfl
      rw [hparse]
      rfl

/-- C7: in INIT, on a complete handshake frame `VER=0x05, NMETHODS,
METHODS`: if `0x00` (no-auth) is among METHODS the session replies
`0x05 0x00` and moves to AWAIT_REQUEST; otherwise it replies `0x05 0xFF`
and disconnects, and in the latter case no further bytes are parsed (every
later `handleDataFromSocksClient` call on the closed session is a no-op
with no effects). -/
theorem init_handshake (n : Nat) (methods : List Nat)
    (hlen : methods.length = n) :
    (0 ∈ methods →
      handleDataFromSocksClient initSession (5 :: n :: methods) =
        (⟨.AWAIT_REQUEST, [], []⟩, [.reply [5, 0]])) ∧
    (0 ∉ methods →
      handleDataFromSocksClient initSession (5 :: n :: methods) =
        (closedSession, [.reply [5, 255], .disconnected]) ∧
      ∀ bs, handleDataFromSocksClient closedSession bs = (closedSession, [])) := by
  constructor
  · intro h0
    rw [handshake_run n methods hlen, if_pos h0]
  · intro h0
    exact ⟨by rw [handshake_run n methods hlen, if_neg h0],
      fun bs => handleData_closed _ bs rfl⟩

theorem init_handshake_witness :
    handleDataFromSocksClient initSession [5, 1, 0] =
      (⟨.AWAIT_REQUEST, [], []⟩, [.reply [5, 0]]) ∧
    handleDataFromSocksClient initSession [5, 1, 1] =
      (closedSession, [.reply [5, 255], .disconnected]) :=
  ⟨(init_handshake 1 [0] rfl).1 (by decide),
    ((init_handshake 1 [1] rfl).2 (by decide)).1⟩

/-- C8: in AWAIT_REQUEST, a CMD other than `0x01` (CONNECT) is answered
with a reply carrying REP `0x07` followed by disconnect; the address field
length is fixed by ATYP (`0x01` → 4-byte IPv4, `0x03` → one length byte and
that many domain bytes, `0x04` → 16-byte IPv6, each followed by the 2-byte
big-endian port); any other ATYP is answered with REP `0x08` followed by
disconnect. -/
theorem awaitRequest_frame_handling (cmd rsv atyp : Nat)
    (a1 a2 a3 a4 p1 p2 : Nat) (dom addr rest : List Nat) :
    (cmd ≠ 1 →
      handleDataFromSocksClient ⟨.AWAIT_REQUEST, [], []⟩ (5 :: cmd :: rest) =
        (closedSession, [.reply (errReply 7), .disconnected])) ∧
    (¬(atyp = 1 ∨ atyp = 3 ∨ atyp = 4) →
      handleDataFromSocksClient ⟨.AWAIT_REQUEST, [], []⟩
          (5 :: 1 :: rsv :: atyp :: rest) =
        (closedSession, [.reply (errReply 8), .disconnected])) ∧
    handleDataFromSocksClient ⟨.AWAIT_REQUEST, [], []⟩
        [5, 1, rsv, 1, a1, a2, a3, a4, p1, p2] =
      (⟨.AWAIT_CONNECT_RESULT, [], []⟩,
        [.resolve (.ipv4 [a1, a2, a3, a4] (256 * p1 + p2))]) ∧
    handleDataFromSocksClient ⟨.AWAIT_REQUEST, [], []⟩
        (5 :: 1 :: rsv :: 3 :: dom.length :: (dom ++ [p1, p2])) =
      (⟨.AWAIT_CONNECT_RESULT, [], []⟩,
        [.resolve (.domainName dom (256 * p1 + p2))]) ∧
    (addr.length = 16 →
      handleDataFromSocksClient ⟨.AWAIT_REQUEST, [], []⟩
          (5 :: 1 :: rsv :: 4 :: (addr ++ [p1, p2])) =
        (⟨.AWAIT_CONNECT_RESULT, [], []⟩,
          [.resolve (.ipv6 addr (256 * p1 + p2))])) :=
  ⟨request_cmd_err cmd rest, request_atyp_err rsv atyp rest,
    request_ipv4 rsv a1 a2 a3 a4 p1 p2, request_domain rsv p1 p2 dom,
    request_ipv6 rsv p1 p2 addr⟩

theorem awaitRequest_frame_handling_witness :
    handleDataFromSocksClient ⟨.AWAIT_REQUEST, [], []⟩ [5, 2] =
      (closedSession, [.reply (errReply 7), .disconnected]) ∧
    handleDataFromSocksClient ⟨.AWAIT_REQUEST, [], []⟩ [5, 1, 0, 5] =
      (closedSession, [.reply (errReply 8), .disconnected]) ∧
    handleDataFromSocksClient ⟨.AWAIT_REQUEST, [], []⟩
        (5 :: 1 :: 0 :: 4 ::
          ([0, 0, 0, 0, 0, 0, 0, 0, 0, 0, 0, 0, 0, 0, 0, 1] ++ [0, 80])) =
      (⟨.AWAIT_CONNECT_RESULT, [], []⟩,
        [.resolve (.ipv6 [0, 0, 0, 0, 0, 0, 0, 0, 0, 0, 0, 0, 0, 0, 0, 1]
          (256 * 0 + 80))]) := by
  have h := awaitRequest_frame_handling 2 0 5 0 0 0 0 0 80 [97]
    [0, 0, 0, 0, 0, 0, 0, 0, 0, 0, 0, 0, 0, 0, 0, 1] []
  exact ⟨h.1 (by decide), h.2.1 (by decide), h.2.2.2.2 (by decide)⟩

/-- A byte sequence that is exactly a valid handshake plus CONNECT request
drives a fresh session to AWAIT_CONNECT_RESULT with clean buffers. -/
theorem validRun (bs : List Nat) (h : ValidHandshakeRequest bs) :
    (handleDataFromSocksClient initSession bs).1 =
      ⟨.AWAIT_CONNECT_RESULT, [], []⟩ := by
  obtain ⟨n, methods, req, rfl, hlen, h0, hreq⟩ := h
  rw [handleData_append, handshake_run n methods hlen, if_pos h0]
  dsimp only
  rcases hreq with ⟨rsv, a1, a2, a3, a4, p1, p2, rfl⟩ |
    ⟨rsv, dom, p1, p2, rfl⟩ | ⟨rsv, addr, p1, p2, h16, rfl⟩
  · rw [request_ipv4 rsv a1 a2 a3 a4 p1 p2]
  · rw [request_domain rsv p1 p2 dom]
  · rw [request_ipv6 rsv p1 p2 addr h16]

/-- C2: for every valid handshake+CONNECT byte sequence and every way of
splitting it into consecutive chunks, delivering the chunks through
successive `handleDataFromSocksClient` calls produces exactly the same
final session and the same effects, in the same order, as delivering the
whole sequence in one call (the chunk equality holds for every session and
every chunk list); and after the server reports connect success the session
is in RELAYING. -/
theorem chunk_invariance (chunks : List (List Nat))
    (h : ValidHandshakeRequest chunks.flatten) :
    (∀ (s : SocksSession) (cs : List (List Nat)),
      handleChunks s cs = handleDataFromSocksClient s cs.flatten) ∧
    handleChunks initSession chunks =
      handleDataFromSocksClient initSession chunks.flatten ∧
    (handleConnectResult (handleChunks initSession chunks).1 none).1.state =
      .RELAYING := by
  have heq := handleChunks_eq_join initSession chunks
  refine ⟨handleChunks_eq_join, heq, ?_⟩
  rw [heq, validRun chunks.flatten h]
  rfl

theorem chunk_invariance_witness :
    handleChunks initSession [[5, 1, 0], [5, 1, 0, 1, 93, 184, 216, 34, 0, 80]] =
      handleDataFromSocksClient initSession
        [5, 1, 0, 5, 1, 0, 1, 93, 184, 216, 34, 0, 80] ∧
    (handleConnectResult (handleChunks initSession
        [[5, 1, 0], [5, 1, 0, 1, 93, 184, 216, 34, 0, 80]]).1 none).1.state =
      .RELAYING := by
  have h := chunk_invariance [[5, 1, 0], [5, 1, 0, 1, 93, 184, 216, 34, 0, 80]]
    ⟨1, [0], [5, 1, 0, 1, 93, 184, 216, 34, 0, 80], rfl, rfl, by decide,
      Or.inl ⟨0, 93, 184, 216, 34, 0, 80, rfl⟩⟩
  exact ⟨h.2.1, h.2.2⟩

/-- C5: `handleDisconnect` (`acceptDisconnect`) is idempotent — a second or
later call leaves the session unchanged and produces no effects (no
outbound emission and no further disconnect notification). -/
theorem handleDisconnect_idempotent (s : SocksSession) :
    SocksSession.handleDisconnect (SocksSession.handleDisconnect s).1 =
      ((SocksSession.handleDisconnect s).1, []) := by
  unfold SocksSession.handleDisconnect
  by_cases h : s.state = .CLOSED
  · rw [if_pos h]
    dsimp only
    rw [if_pos h]
  · rw [if_neg h]
    rfl

/-- The session produced by `handleDisconnect` is CLOSED. -/
theorem handleDisconnect_closed (s : SocksSession) :
    (SocksSession.handleDisconnect s).1.state = .CLOSED := by
  unfold SocksSession.handleDisconnect
  by_cases h : s.state = .CLOSED
  · rw [if_pos h]
    exact h
  · rw [if_neg h]
    rfl

/-- C6: once `handleDisconnect` (`acceptDisconnect`) has been observed, no
subsequent operation — further inbound data, a connect result, or another
disconnect — produces any effect: in particular the registered outbound
sink is never invoked again. -/
theorem no_emission_after_disconnect (s : SocksSession) (bs : List Nat)
    (r : Option Nat) :
    handleDataFromSocksClient (SocksSession.handleDisconnect s).1 bs =
      ((SocksSession.handleDisconnect s).1, []) ∧
    handleConnectResult (SocksSession.handleDisconnect s).1 r =
      ((SocksSession.handleDisconnect s).1, []) ∧
    SocksSession.handleDisconnect (SocksSession.handleDisconnect s).1 =
      ((SocksSession.handleDisconnect s).1, []) := by
  have hcl := handleDisconnect_closed s
  have hdisc : ∀ t : SocksSession, t.state = .CLOSED →
      SocksSession.handleDisconnect t = (t, []) := by
    intro t h
    unfold SocksSession.handleDisconnect
    rw [if_pos h]
  refine ⟨handleData_closed _ bs hcl, ?_, hdisc _ hcl⟩
  unfold handleConnectResult
  rw [if_neg (by rw [hcl]; intro hh; cases hh)]

/-- Any first disconnect trigger on a fresh coupled pair closes both sides,
invoking each `acceptDisconnect` once, and trips the shared guard. -/
theorem trigger_couple (side : CouplerSide) :
    triggerDisconnect couple side = ⟨true, true, true, 1, 1⟩ := by
  cases side <;> rfl

theorem trigger_done (side : CouplerSide) :
    triggerDisconnect ⟨true, true, true, 1, 1⟩ side =
      ⟨true, true, true, 1, 1⟩ := by
  cases side <;> rfl

theorem runTriggers_done (l : List CouplerSide) :
    l.foldl triggerDisconnect ⟨true, true, true, 1, 1⟩ =
      ⟨true, true, true, 1, 1⟩ := by
  induction l with
  | nil => rfl
  | cons t rest ih => rw [List.foldl_cons, trigger_done, ih]

/-- C3: after `couple(a, b)`, for any nonempty sequence of disconnect
triggers (from either side, in any order) each side's `acceptDisconnect` is
invoked exactly once — the first trigger from either side propagates to the
other side's `acceptDisconnect` via the shared guarded handler — and every
later trigger is a no-op. -/
theorem coupler_exactly_once (triggers : List CouplerSide)
    (hne : triggers ≠ []) :
    (runTriggers triggers).aCount = 1 ∧
    (runTriggers triggers).bCount = 1 ∧
    (∀ side, triggerDisconnect (runTriggers triggers) side =
      runTriggers triggers) ∧
    (triggerDisconnect couple CouplerSide.A).bCount = 1 ∧
    (triggerDisconnect couple CouplerSide.B).aCount = 1 := by
  have hrun : runTriggers triggers = ⟨true, true, true, 1, 1⟩ := by
    cases triggers with
    | nil => exact absurd rfl hne
    | cons t rest =>
        unfold runTriggers
        rw [List.foldl_cons, trigger_couple, runTriggers_done]
  rw [hrun]
  exact ⟨rfl, rfl, trigger_done, rfl, rfl⟩

theorem coupler_exactly_once_witness :
    (runTriggers [CouplerSide.A, CouplerSide.B, CouplerSide.A]).aCount = 1 ∧
    (runTriggers [CouplerSide.A, CouplerSide.B, CouplerSide.A]).bCount = 1 := by
  have h := coupler_exactly_once [CouplerSide.A, CouplerSide.B, CouplerSide.A]
    (by decide)
  exact ⟨h.1, h.2.1⟩

/-- C4: a Piece holds at most one registered outbound-data sink and at most
one disconnect observer; re-registering replaces the previous callback, and
emissions and disconnect notifications reach only the most recently
registered callback. -/
theorem piece_single_callback (p : PieceWiring) (evs : List WiringEvent)
    (cb cb2 : Nat) :
    PieceWiring.onDataForSocksClient (PieceWiring.onDataForSocksClient p cb) cb2 =
      PieceWiring.onDataForSocksClient p cb2 ∧
    PieceWiring.onDisconnect (PieceWiring.onDisconnect p cb) cb2 =
      PieceWiring.onDisconnect p cb2 ∧
    (PieceWiring.emitTargets p).length ≤ 1 ∧
    (PieceWiring.disconnectTargets p).length ≤ 1 ∧
    PieceWiring.emitTargets
      (applyWirings p (evs ++ [WiringEvent.registerData cb])) = [cb] ∧
    PieceWiring.disconnectTargets
      (applyWirings p (evs ++ [WiringEvent.registerDisconnect cb])) = [cb] := by
  refine ⟨rfl, rfl, ?_, ?_, ?_, ?_⟩
  · unfold PieceWiring.emitTargets
    cases p.dataSink <;> simp
  · unfold PieceWiring.disconnectTargets
    cases p.disconnectObserver <;> simp
  · unfold applyWirings
    rw [List.foldl_append]
    rfl
  · unfold applyWirings
    rw [List.foldl_append]
    rfl
